import Mathlib

set_option maxRecDepth 4000
set_option linter.unnecessarySeqFocus false

/-!
Shallow embedding of the order-and-payment backend in `src/server.js`
(and its variant `src/unnamed/part_000`, which is identical in all of the
logic modelled here: the two files differ only in the email transport,
nodemailer versus EmailJS, which is an external collaborator).

Modelling conventions:
  - JS numbers that the code treats as amounts/counters are `Int`.
  - Missing JS object fields are `Option` fields; JS falsiness on strings is
    `truthyStr` (`undefined`/`""` are falsy).
  - The Firebase realtime database is a `Store` record: an `orders` list
    (keyed by the `id` field), a `notifications` list, and a `seed` from which
    fresh push keys are generated (Firebase key generation is an external
    collaborator; a counter models it).
  - External effects that can fail (the gateway token call, the STK push call,
    store writes, email sends) are driven by explicit outcome parameters
    (`StkFX`, `CallbackFX`, `OrderFX`, `EmailCfg`), one per call site, exactly
    mirroring which JS `await` can throw where.
  - `new Date().toISOString()` is an explicit `now : String` parameter.
  - Result records carry instrumentation fields (`tokenCalled`, `pushCalled`,
    `thrownAt`) recording which external calls were made and which call site
    raised the error that the surrounding `catch` surfaced; they add no
    behaviour.
-/

namespace BackendPayment

/-- JSON scalar values as they appear in M-Pesa callback metadata items. -/
inductive JVal where
  | jstr : String → JVal
  | jnum : Int → JVal
  | jbool : Bool → JVal
deriving DecidableEq, Repr

/-- JS truthiness of a JSON scalar (`""`, `0`, `false` are falsy). -/
def JVal.truthy : JVal → Bool
  | jstr s => !(s == "")
  | jnum n => !(n == 0)
  | jbool b => b

/-- JS truthiness of a possibly-missing string field (`undefined` and `""` are falsy). -/
def truthyStr : Option String → Bool
  | none => false
  | some s => !(s == "")

/-- JS template-literal rendering of a JSON scalar. -/
def JVal.display : JVal → String
  | jstr s => s
  | jnum n => toString n
  | jbool b => if b then "true" else "false"

/-- Model of `phone.replace(/\D/g, '')`: keep only decimal digits. -/
def jsDigitsOnly (s : String) : String :=
  String.mk (s.toList.filter Char.isDigit)

/-- Model of `String.prototype.startsWith`. -/
def jsStartsWith (s p : String) : Bool :=
  p.toList.isPrefixOf s.toList

/-- Model of `s.slice(-n)` (the last `n` characters, or all of `s` if shorter). -/
def jsSliceLast (s : String) (n : Nat) : String :=
  String.mk (s.toList.drop (s.toList.length - n))

/-- Model of `s.slice(n)` (drop the first `n` characters). -/
def jsDropFirst (s : String) (n : Nat) : String :=
  String.mk (s.toList.drop n)

/-- Insert a comma after every third character (used on a reversed digit list). -/
def commaChunk : List Char → List Char
  | a :: b :: c :: d :: rest => a :: b :: c :: ',' :: commaChunk (d :: rest)
  | l => l

/-- Model of `Number.prototype.toLocaleString()` for integer values
(thousands separated by commas, as in the en-US default locale). -/
def jsToLocaleString (n : Int) : String :=
  (if n < 0 then "-" else "") ++
    String.mk (commaChunk (toString n.natAbs).toList.reverse).reverse

/-- Digit-coercion stage of `formatPhone` in `src/server.js` lines 462-475:
strip non-digits, then map a leading trunk `0` to `254`, keep an existing
`254` prefix, and otherwise prepend `254`.  (The `startsWith('+254')` branch
of the source tests the already digit-only string and is therefore dead;
it is kept verbatim.) -/
def coercePhoneDigits (phone : String) : String :=
  let cleaned := jsDigitsOnly phone
  if jsStartsWith cleaned "0" then "254" ++ jsDropFirst cleaned 1
  else if jsStartsWith cleaned "+254" then jsDropFirst cleaned 1
  else if !(jsStartsWith cleaned "254") then "254" ++ cleaned
  else cleaned

/-- `formatPhone` from `src/server.js` lines 462-475.  Throwing is modelled
as `Except.error` carrying the thrown `Error`'s message. -/
def formatPhone (phone : String) : Except String String :=
  if phone == "" then Except.error "Phone number is required"
  else
    let cleaned := coercePhoneDigits phone
    if !(cleaned.length == 12) then
      Except.error ("Invalid phone number: " ++ phone ++
        ". Expected 12 digits after formatting, got " ++ toString cleaned.length)
    else Except.ok cleaned

example : formatPhone "0712345678" = Except.ok "254712345678" := by rfl
example : formatPhone "12345" =
    Except.error "Invalid phone number: 12345. Expected 12 digits after formatting, got 8" := by rfl

/-! ## Callback payload shape

The gateway posts `{ Body: { stkCallback: { CheckoutRequestID, ResultCode,
ResultDesc, CallbackMetadata: { Item: [ { Name, Value }, ... ] } } } }`.
Every level the code tests for may be missing. -/

/-- One entry of `CallbackMetadata.Item`. -/
structure MetaItem where
  Name : String
  Value : Option JVal
deriving DecidableEq, Repr

/-- The `CallbackMetadata` object of a success callback. -/
structure CallbackMetadata where
  Item : Option (List MetaItem)
deriving DecidableEq, Repr

/-- The `stkCallback` object. -/
structure StkCallbackData where
  CheckoutRequestID : Option String
  ResultCode : Int
  ResultDesc : String
  CallbackMetadata : Option CallbackMetadata
deriving DecidableEq, Repr

/-- The `Body` wrapper of the callback request body. -/
structure CallbackBodyInner where
  stkCallback : Option StkCallbackData
deriving DecidableEq, Repr

/-- The callback request body (`req.body`). -/
structure CallbackBody where
  Body : Option CallbackBodyInner
deriving DecidableEq, Repr

/-- Values stored in order `mpesaData` maps and in notification `details`
objects: strings, numbers, booleans, values copied verbatim from callback
metadata, the whole raw callback body (`mpesaCallback: req.body`), arrays
and nested objects. -/
inductive MVal where
  | vstr : String → MVal
  | vnum : Int → MVal
  | vbool : Bool → MVal
  | vjson : JVal → MVal
  | vbody : CallbackBody → MVal
  | varr : List MVal → MVal
  | vobj : List (String × MVal) → MVal

/-! ## Order and notification documents -/

/-- A stored order line item (after the defaulting in the create-order handler). -/
structure Item where
  id : String
  name : String
  price : Int
  quantity : Int
  image : String
  brand : String

/-- Stored customer info (`{...customerInfo, phone: formattedPhone}`). -/
structure CustomerInfo where
  name : String
  phone : String
  deliveryAddress : String
  email : Option String

/-- An order document in the `orders` collection.  `mpesaData` is the
JSON object stored under the `mpesaData` key, as an association list
(`[]` when the key is absent, matching `currentOrder.mpesaData || {}`). -/
structure Order where
  id : String
  items : List Item
  total : Int
  customerInfo : CustomerInfo
  paymentMethod : String
  status : String
  mpesaData : List (String × MVal)
  createdAt : String
  updatedAt : String

/-- A notification document in the `notifications` collection. -/
structure Notification where
  id : String
  message : String
  type : String
  orderId : Option String
  details : Option (List (String × MVal))
  read : Bool
  time : String

/-- The Firebase realtime database: the `orders` and `notifications`
collections, plus a seed for the external push-key generator. -/
structure Store where
  seed : Nat
  orders : List Order
  notifications : List Notification

/-- Model of `db.ref(...).push()` key generation (an external collaborator). -/
def Store.freshKey (s : Store) : String × Store :=
  ("key-" ++ toString s.seed, { s with seed := s.seed + 1 })

/-! ## Firebase helpers (`src/server.js` lines 480-556) -/

/-- Lookup in a JSON object modelled as an association list. -/
def lookupMVal (l : List (String × MVal)) (k : String) : Option MVal :=
  (l.find? (fun p => p.1 == k)).map (fun p => p.2)

/-- JS object spread `{...old, ...updates}`: keys of `old` in order, with
values overridden by `updates`, followed by the keys only in `updates`. -/
def spreadMerge (old updates : List (String × MVal)) : List (String × MVal) :=
  (old.map (fun p =>
    match updates.find? (fun q => q.1 == p.1) with
    | some q => (p.1, q.2)
    | none => p))
  ++ updates.filter (fun q => old.all (fun p => !(p.1 == q.1)))

/-- `getOrderById` (`src/server.js` lines 525-533): point lookup by id. -/
def getOrderById (s : Store) (orderId : String) : Option Order :=
  s.orders.find? (fun o => o.id == orderId)

/-- The per-document effect of the `db.ref(orders/id).update(updates)` call in
`updateOrderStatus`: set `status` and `updatedAt`, and when payment data is
supplied replace `mpesaData` by `{...(currentOrder.mpesaData || {}), ...mpesaData}`. -/
def setOrderFields (o : Order) (status now : String)
    (mpesaData : Option (List (String × MVal))) : Order :=
  { o with
    status := status
    updatedAt := now
    mpesaData :=
      match mpesaData with
      | some md => spreadMerge o.mpesaData md
      | none => o.mpesaData }

/-- `updateOrderStatus` (`src/server.js` lines 500-523).  The callers below
only invoke it on an id they have just looked up, so the Firebase behaviour
on an absent id is not exercised; the model updates the document(s) with the
given id and leaves everything else alone. -/
def updateOrderStatus (s : Store) (orderId status : String)
    (mpesaData : Option (List (String × MVal))) (now : String) : Store :=
  { s with
    orders := s.orders.map (fun o =>
      if o.id == orderId then setOrderFields o status now mpesaData else o) }

/-- `createNotification` (`src/server.js` lines 538-556).  The write outcome
`writeOk` is the external store's answer; a failure is caught inside the
function, so it never propagates and simply leaves the store unchanged. -/
def createNotification (s : Store) (writeOk : Bool) (message type : String)
    (orderId : Option String) (details : Option (List (String × MVal)))
    (now : String) : Store :=
  if writeOk then
    let key := s.freshKey.1
    let s' := s.freshKey.2
    { s' with
      notifications := s'.notifications ++
        [{ id := key, message := message, type := type, orderId := orderId,
           details := details, read := false, time := now }] }
  else s

/-! ## Email sinks (`src/server.js` lines 108-359)

The email template rendering is an external concern; what the handlers
observe is only the boolean result, computed exactly as in the source:
`false` when the transporter is unconfigured, when the target address is
missing, or when `sendMail` throws (caught inside), `true` otherwise. -/

/-- The email configuration visible to the two senders. -/
structure EmailCfg where
  transporterOk : Bool
  adminEmail : Option String

/-- `sendOrderConfirmationEmail`: result of the guarded, self-catching send. -/
def sendOrderConfirmationEmail (cfg : EmailCfg) (order : Option Order)
    (sendOk : Bool) : Bool :=
  if !cfg.transporterOk then false
  else
    match order with
    | none => false
    | some o => if !(truthyStr o.customerInfo.email) then false else sendOk

/-- `sendAdminNotificationEmail`: result of the guarded, self-catching send. -/
def sendAdminNotificationEmail (cfg : EmailCfg) (_order : Option Order)
    (sendOk : Bool) : Bool :=
  if !cfg.transporterOk then false
  else if !(truthyStr cfg.adminEmail) then false
  else sendOk

/-! ## Responses -/

/-- A JSON API response: HTTP status plus the `success`/`message` body. -/
structure ApiResp where
  status : Nat
  success : Bool
  message : String
deriving DecidableEq, Repr

/-- The acknowledgement body the callback endpoint returns to the gateway
(always HTTP 200). -/
structure CbResp where
  ResultCode : Int
  ResultDesc : String
deriving DecidableEq, Repr

/-! ## POST /api/orders (`src/server.js` lines 585-687) -/

/-- A raw line item from the request body (every field may be missing). -/
structure ItemReq where
  id : Option String
  name : Option String
  price : Option Int
  quantity : Option Int
  image : Option String
  brand : Option String

/-- Raw `customerInfo` from the request body. -/
structure CustomerInfoReq where
  name : Option String
  phone : Option String
  deliveryAddress : Option String
  email : Option String

/-- The request body of `POST /api/orders`. -/
structure OrderReq where
  items : Option (List ItemReq)
  total : Option Int
  customerInfo : Option CustomerInfoReq
  paymentMethod : Option String

/-- JS `x || d` on a possibly-missing string. -/
def strOrDefault (v : Option String) (d : String) : String :=
  match v with
  | some s => if s == "" then d else s
  | none => d

/-- The item-defaulting map in the create-order handler.  The source uses
a fresh random id built from the clock for a missing `item.id`; the model
derives it from `now`. -/
def buildItem (now : String) (it : ItemReq) : Item :=
  { id := strOrDefault it.id ("item-" ++ now)
    name := strOrDefault it.name "Unknown Product"
    price := it.price.getD 0
    quantity :=
      match it.quantity with
      | some q => if q == 0 then 1 else q
      | none => 1
    image := strOrDefault it.image ""
    brand := strOrDefault it.brand "" }

/-- External outcomes for one run of the create-order handler. -/
structure OrderFX where
  saveErr : Option String
  notifOk : Bool

/-- Result of the create-order handler. -/
structure CreateResult where
  resp : ApiResp
  order : Option Order
  store : Store

/-- The `POST /api/orders` handler. -/
def createOrder (fx : OrderFX) (s : Store) (req : OrderReq) (now : String) :
    CreateResult :=
  match req.items with
  | none => ⟨⟨400, false, "Order must contain at least one item"⟩, none, s⟩
  | some items =>
  if items.length == 0 then
    ⟨⟨400, false, "Order must contain at least one item"⟩, none, s⟩
  else
  match req.total with
  | none => ⟨⟨400, false, "Invalid total amount"⟩, none, s⟩
  | some total =>
  if total ≤ 0 then ⟨⟨400, false, "Invalid total amount"⟩, none, s⟩
  else
  match req.customerInfo with
  | none =>
    ⟨⟨400, false,
      "Missing customer information: name, phone, and deliveryAddress are required"⟩,
     none, s⟩
  | some ci =>
  if !(truthyStr ci.name) || !(truthyStr ci.phone) || !(truthyStr ci.deliveryAddress) then
    ⟨⟨400, false,
      "Missing customer information: name, phone, and deliveryAddress are required"⟩,
     none, s⟩
  else
  if !(truthyStr req.paymentMethod) then
    ⟨⟨400, false, "Payment method is required"⟩, none, s⟩
  else
  match formatPhone (ci.phone.getD "") with
  | Except.error msg => ⟨⟨400, false, msg⟩, none, s⟩
  | Except.ok formattedPhone =>
  match fx.saveErr with
  | some _ => ⟨⟨500, false, "Internal server error while creating order"⟩, none, s⟩
  | none =>
    let key := s.freshKey.1
    let s1 := s.freshKey.2
    let order : Order :=
      { id := key
        items := items.map (buildItem now)
        total := total
        customerInfo :=
          { name := ci.name.getD ""
            phone := formattedPhone
            deliveryAddress := ci.deliveryAddress.getD ""
            email := ci.email }
        paymentMethod := req.paymentMethod.getD ""
        status := "pending"
        mpesaData := []
        createdAt := now
        updatedAt := now }
    let s2 := { s1 with orders := s1.orders ++ [order] }
    let s3 := createNotification s2 fx.notifOk
      ("🛒 New order #" ++ jsSliceLast order.id 8 ++ " from " ++ ci.name.getD "" ++
        " (KSh " ++ jsToLocaleString total ++ ")")
      "info" (some order.id)
      (some [("customerName", MVal.vstr (ci.name.getD "")),
             ("phone", MVal.vstr formattedPhone),
             ("amount", MVal.vnum total),
             ("items", MVal.vstr
               (String.intercalate ", " (items.map (fun it => it.name.getD ""))))])
      now
    ⟨⟨201, true, "Order created successfully"⟩, some order, s3⟩

/-! ## POST /api/mpesa/stk-push (`src/server.js` lines 720-863) -/

/-- The request body of `POST /api/mpesa/stk-push`. -/
structure StkReq where
  phoneNumber : Option String
  amount : Option Int
  orderId : Option String
  accountReference : Option String
  transactionDesc : Option String

/-- The fields of the gateway's acceptance response the handler reads. -/
structure PushResp where
  CheckoutRequestID : String
  MerchantRequestID : String
deriving DecidableEq, Repr

/-- Which `await` inside the try block raised the error the catch surfaced. -/
inductive StkThrowSite where
  | tokenSite
  | phoneSite
  | gatewaySite
  | storeSite
deriving DecidableEq, Repr

/-- External outcomes for one run of the STK push handler: the token
exchange, the gateway push call, the order-status write, and the two
notification writes. -/
structure StkFX where
  token : Except String String
  push : Except String PushResp
  updateErr : Option String
  notifOk : Bool
  failNotifOk : Bool

/-- Result of the STK push handler, with call/throw instrumentation. -/
structure StkResult where
  resp : ApiResp
  store : Store
  tokenCalled : Bool
  pushCalled : Bool
  thrownAt : Option StkThrowSite

/-- The catch block of the STK push handler: re-fetch the order by the raw
request id, emit a best-effort failure notification when it exists, and
answer 500 with the thrown error's message. -/
def stkCatch (fx : StkFX) (s : Store) (req : StkReq) (now msg : String)
    (tokenCalled pushCalled : Bool) (site : StkThrowSite) : StkResult :=
  let s' :=
    match getOrderById s (req.orderId.getD "") with
    | some order =>
      createNotification s fx.failNotifOk
        ("❌ STK Push failed for Order #" ++ jsSliceLast (req.orderId.getD "") 8 ++
          ": " ++ msg)
        "error" req.orderId
        (some [("customerName", MVal.vstr order.customerInfo.name),
               ("phone", MVal.vstr (req.phoneNumber.getD "")),
               ("amount", MVal.vnum (req.amount.getD 0)),
               ("error", MVal.vstr msg)])
        now
    | none => s
  ⟨⟨500, false, msg⟩, s', tokenCalled, pushCalled, some site⟩

/-- The `POST /api/mpesa/stk-push` handler.  Note the source obtains the
gateway token before it runs `formatPhone`. -/
def stkPush (fx : StkFX) (s : Store) (req : StkReq) (now : String) : StkResult :=
  if !(truthyStr req.phoneNumber) then
    ⟨⟨400, false, "Phone number is required"⟩, s, false, false, none⟩
  else
  match req.amount with
  | none => ⟨⟨400, false, "Valid amount is required"⟩, s, false, false, none⟩
  | some amount =>
  if amount ≤ 0 then ⟨⟨400, false, "Valid amount is required"⟩, s, false, false, none⟩
  else
  if !(truthyStr req.orderId) then
    ⟨⟨400, false, "Order ID is required"⟩, s, false, false, none⟩
  else
  let orderId := req.orderId.getD ""
  match getOrderById s orderId with
  | none => ⟨⟨404, false, "Order not found"⟩, s, false, false, none⟩
  | some order =>
  match fx.token with
  | Except.error msg => stkCatch fx s req now msg true false StkThrowSite.tokenSite
  | Except.ok _token =>
  match formatPhone (req.phoneNumber.getD "") with
  | Except.error msg => stkCatch fx s req now msg true false StkThrowSite.phoneSite
  | Except.ok phone =>
  match fx.push with
  | Except.error msg => stkCatch fx s req now msg true true StkThrowSite.gatewaySite
  | Except.ok gw =>
  match fx.updateErr with
  | some msg => stkCatch fx s req now msg true true StkThrowSite.storeSite
  | none =>
    let s1 := updateOrderStatus s orderId "payment_pending"
      (some [("checkoutRequestId", MVal.vstr gw.CheckoutRequestID),
             ("merchantRequestId", MVal.vstr gw.MerchantRequestID),
             ("stkPushSentAt", MVal.vstr now),
             ("amount", MVal.vnum amount),
             ("phoneNumber", MVal.vstr phone)])
      now
    let s2 := createNotification s1 fx.notifOk
      ("📱 STK Push sent to " ++ phone ++ " for Order #" ++ jsSliceLast orderId 8 ++
        " (KSh " ++ toString amount ++ ")")
      "info" (some orderId)
      (some [("customerName", MVal.vstr order.customerInfo.name),
             ("phone", MVal.vstr phone),
             ("amount", MVal.vnum amount),
             ("orderId", MVal.vstr orderId)])
      now
    ⟨⟨200, true, "STK Push initiated successfully. Check your phone to complete payment."⟩,
     s2, true, true, none⟩

/-! ## POST /api/mpesa/callback (`src/server.js` lines 868-1011) -/

/-- External outcomes for one run of the callback handler: the
order-status write, the two email sends, and the three notification writes. -/
structure CallbackFX where
  dbErr : Bool
  custSendOk : Bool
  emailNotifOk : Bool
  adminSendOk : Bool
  mainNotifOk : Bool
  failNotifOk : Bool

/-- Result of the callback handler. -/
structure CbResult where
  resp : CbResp
  store : Store

/-- Extraction of a named field from the metadata list:
`CallbackMetadata && CallbackMetadata.Item` guard, then
`Item.find(i => i.Name === name)?.Value`. -/
def metaFieldValue (md : Option CallbackMetadata) (name : String) : Option JVal :=
  match md with
  | some m =>
    match m.Item with
    | some items => (items.find? (fun i => i.Name == name)).bind (fun i => i.Value)
    | none => none
  | none => none

/-- JS `v || d` on the result of the metadata extraction. -/
def jsOrDefault (v : Option JVal) (d : JVal) : JVal :=
  match v with
  | some x => if x.truthy then x else d
  | none => d

/-- The Firebase query `orderByChild('mpesaData/checkoutRequestId').equalTo(cid)`:
does this order's stored `mpesaData.checkoutRequestId` equal the callback's
correlation id? -/
def hasCheckoutId (o : Order) (cid : String) : Bool :=
  match lookupMVal o.mpesaData "checkoutRequestId" with
  | some (MVal.vstr s) => s == cid
  | _ => false

/-- The `POST /api/mpesa/callback` handler. -/
def mpesaCallback (cfg : EmailCfg) (fx : CallbackFX) (s : Store)
    (body : CallbackBody) (now : String) : CbResult :=
  match body.Body with
  | none => ⟨⟨1, "No STK callback data"⟩, s⟩
  | some inner =>
  match inner.stkCallback with
  | none => ⟨⟨1, "No STK callback data"⟩, s⟩
  | some stk =>
  if !(truthyStr stk.CheckoutRequestID) then ⟨⟨1, "No CheckoutRequestID"⟩, s⟩
  else
  let cid := stk.CheckoutRequestID.getD ""
  match s.orders.find? (fun o => hasCheckoutId o cid) with
  | none => ⟨⟨1, "Order not found"⟩, s⟩
  | some order =>
  let orderId := order.id
  if stk.ResultCode == 0 then
    let receiptNumber :=
      jsOrDefault (metaFieldValue stk.CallbackMetadata "MpesaReceiptNumber")
        (JVal.jstr "Unknown")
    let amount :=
      jsOrDefault (metaFieldValue stk.CallbackMetadata "Amount") (JVal.jnum 0)
    let phoneNumber :=
      jsOrDefault (metaFieldValue stk.CallbackMetadata "PhoneNumber")
        (JVal.jstr "Unknown")
    if fx.dbErr then ⟨⟨1, "Callback processing failed"⟩, s⟩
    else
      let s1 := updateOrderStatus s orderId "paid"
        (some [("receiptNumber", MVal.vjson receiptNumber),
               ("amount", MVal.vjson amount),
               ("phoneNumber", MVal.vjson phoneNumber),
               ("completedAt", MVal.vstr now),
               ("mpesaCallback", MVal.vbody body)])
        now
      let updatedOrder := getOrderById s1 orderId
      let emailSent := sendOrderConfirmationEmail cfg updatedOrder fx.custSendOk
      let s2 :=
        if emailSent then
          createNotification s1 fx.emailNotifOk
            ("📧 Confirmation email sent to " ++ order.customerInfo.email.getD "" ++
              " for Order #" ++ jsSliceLast orderId 8)
            "info" (some orderId)
            (some [("customerName", MVal.vstr order.customerInfo.name),
                   ("email", MVal.vstr (order.customerInfo.email.getD "")),
                   ("orderId", MVal.vstr orderId)])
            now
        else s1
      let _adminSent := sendAdminNotificationEmail cfg updatedOrder fx.adminSendOk
      let s3 := createNotification s2 fx.mainNotifOk
        ("💰 Payment of KSh " ++ amount.display ++ " received for Order #" ++
          jsSliceLast orderId 8 ++ " from " ++ order.customerInfo.name ++
          ". Receipt: " ++ receiptNumber.display)
        "success" (some orderId)
        (some [("customerName", MVal.vstr order.customerInfo.name),
               ("phone", MVal.vjson phoneNumber),
               ("amount", MVal.vjson amount),
               ("receiptNumber", MVal.vjson receiptNumber),
               ("emailSent", MVal.vbool (truthyStr order.customerInfo.email)),
               ("items", MVal.varr (order.items.map (fun it => MVal.vobj
                  [("name", MVal.vstr it.name),
                   ("quantity", MVal.vnum it.quantity),
                   ("price", MVal.vnum it.price),
                   ("total", MVal.vnum (it.price * it.quantity))]))),
               ("totalOrderAmount", MVal.vnum order.total),
               ("deliveryAddress", MVal.vstr order.customerInfo.deliveryAddress)])
        now
      ⟨⟨0, "Success"⟩, s3⟩
  else
    if fx.dbErr then ⟨⟨1, "Callback processing failed"⟩, s⟩
    else
      let s1 := updateOrderStatus s orderId "payment_failed"
        (some [("reason", MVal.vstr stk.ResultDesc),
               ("failedAt", MVal.vstr now),
               ("mpesaCallback", MVal.vbody body)])
        now
      let s2 := createNotification s1 fx.failNotifOk
        ("❌ Payment failed for Order #" ++ jsSliceLast orderId 8 ++ ": " ++
          stk.ResultDesc)
        "error" (some orderId)
        (some [("customerName", MVal.vstr order.customerInfo.name),
               ("phone", MVal.vstr order.customerInfo.phone),
               ("amount", MVal.vnum order.total),
               ("reason", MVal.vstr stk.ResultDesc)])
        now
      ⟨⟨0, "Success"⟩, s2⟩

/-! ## The operations of the system, as a transition relation on the store -/

/-- One inbound request that can mutate the store. -/
inductive Op where
  | createOp : OrderFX → OrderReq → String → Op
  | pushOp : StkFX → StkReq → String → Op
  | callbackOp : EmailCfg → CallbackFX → CallbackBody → String → Op

/-- The store after handling one request. -/
def applyOp (s : Store) : Op → Store
  | Op.createOp fx req now => (createOrder fx s req now).store
  | Op.pushOp fx req now => (stkPush fx s req now).store
  | Op.callbackOp cfg fx body now => (mpesaCallback cfg fx s body now).store

/-! ## Concrete data for witnesses and counterexamples -/

/-- An email configuration with no transporter (the service-disabled case). -/
def demoCfg : EmailCfg := ⟨false, none⟩

/-- Callback outcomes with every external effect succeeding. -/
def demoCbFX : CallbackFX := ⟨false, true, true, true, true, true⟩

/-- The `stkCallback` object of a successful payment for `ws_CO_123`. -/
def demoStkData : StkCallbackData :=
  { CheckoutRequestID := some "ws_CO_123"
    ResultCode := 0
    ResultDesc := "The service request is processed successfully."
    CallbackMetadata := some ⟨some
      [⟨"MpesaReceiptNumber", some (JVal.jstr "ABC123")⟩,
       ⟨"Amount", some (JVal.jnum 1500)⟩,
       ⟨"PhoneNumber", some (JVal.jnum 254712345678)⟩]⟩ }

/-- A well-formed success callback for correlation id `ws_CO_123`. -/
def demoBody : CallbackBody := ⟨some ⟨some demoStkData⟩⟩

/-- The `stkCallback` object of a cancelled payment for `ws_CO_123`. -/
def demoFailStkData : StkCallbackData :=
  { CheckoutRequestID := some "ws_CO_123"
    ResultCode := 1
    ResultDesc := "Request cancelled by user"
    CallbackMetadata := none }

/-- A well-formed failure callback for the same correlation id. -/
def demoFailBody : CallbackBody := ⟨some ⟨some demoFailStkData⟩⟩

/-- An order awaiting its callback, as the STK push handler leaves it. -/
def demoPendingOrder : Order :=
  { id := "ord-1"
    items := [⟨"i1", "Phone X", 1500, 1, "", ""⟩]
    total := 1500
    customerInfo := ⟨"Jane Doe", "254712345678", "Nairobi CBD", none⟩
    paymentMethod := "mpesa"
    status := "payment_pending"
    mpesaData :=
      [("checkoutRequestId", MVal.vstr "ws_CO_123"),
       ("merchantRequestId", MVal.vstr "mer-1"),
       ("stkPushSentAt", MVal.vstr "T0"),
       ("amount", MVal.vnum 1500),
       ("phoneNumber", MVal.vstr "254712345678")]
    createdAt := "T0"
    updatedAt := "T0" }

/-- A store holding exactly the pending order. -/
def demoStore0 : Store := ⟨1, [demoPendingOrder], []⟩

/-- The store after the first delivery of the success callback. -/
def demoFirstDelivery : Store :=
  (mpesaCallback demoCfg demoCbFX demoStore0 demoBody "T1").store

/-- The result of redelivering the identical payload to that store. -/
def demoSecondDelivery : CbResult :=
  mpesaCallback demoCfg demoCbFX demoFirstDelivery demoBody "T2"

/-- A freshly created order with no payment attempt. -/
def demoNewOrder : Order :=
  { id := "ord-1"
    items := [⟨"i1", "Phone X", 1500, 1, "", ""⟩]
    total := 1500
    customerInfo := ⟨"Jane Doe", "254712345678", "Nairobi CBD", none⟩
    paymentMethod := "mpesa"
    status := "pending"
    mpesaData := []
    createdAt := "T0"
    updatedAt := "T0" }

/-- A store holding exactly the new order. -/
def demoStoreNew : Store := ⟨1, [demoNewOrder], []⟩

/-- A valid STK push request for that order. -/
def demoStkReq : StkReq :=
  { phoneNumber := some "0712345678"
    amount := some 1500
    orderId := some "ord-1"
    accountReference := none
    transactionDesc := none }

/-- An STK push request whose phone cannot be normalized. -/
def demoBadPhoneStkReq : StkReq := { demoStkReq with phoneNumber := some "12345" }

/-- STK push outcomes with the gateway accepting and every write succeeding. -/
def demoStkFX : StkFX :=
  { token := Except.ok "tok"
    push := Except.ok ⟨"ws_CO_123", "mer-1"⟩
    updateErr := none
    notifOk := true
    failNotifOk := true }

/-- A valid create-order request. -/
def demoOrderReq : OrderReq :=
  { items := some [⟨some "i1", some "Phone X", some 1500, some 1, none, none⟩]
    total := some 1500
    customerInfo := some ⟨some "Jane Doe", some "0712345678", some "Nairobi CBD", none⟩
    paymentMethod := some "mpesa" }

/-- A create-order request with an empty items list. -/
def demoEmptyItemsReq : OrderReq := { demoOrderReq with items := some [] }

/-! ## List-level helper lemmas -/

/-- `find?` by a key commutes with mapping a key-preserving function. -/
theorem find?_map_keyPres {α : Type} (l : List α) (key : α → String) (f : α → α)
    (t : String) (hf : ∀ a, key (f a) = key a) :
    (l.map f).find? (fun a => key a == t) =
      (l.find? (fun a => key a == t)).map f := by
  induction l with
  | nil => rfl
  | cons a l ih =>
    by_cases hp : (key a == t) = true
    · simp [List.find?_cons, hf, hp]
    · simp [List.find?_cons, hf, hp, ih]

/-- Filtering out only elements that cannot match leaves `find?` unchanged. -/
theorem find?_filter_of_imp {α : Type} (l : List α) (p q : α → Bool)
    (h : ∀ x, p x = true → q x = true) :
    (l.filter q).find? p = l.find? p := by
  induction l with
  | nil => rfl
  | cons a l ih =>
    by_cases hq : q a = true
    · by_cases hp : p a = true
      · simp [List.filter_cons, hq, List.find?_cons, hp]
      · simp [List.filter_cons, hq, List.find?_cons, hp, ih]
    · have hp : ¬ p a = true := fun hpa => hq (h a hpa)
      simp [List.filter_cons, hq, List.find?_cons, hp, ih]

/-- A member with the sought key guarantees that `find?` by that key succeeds,
and whatever it returns carries that key. -/
theorem find?_id_of_mem (l : List Order) (a : Order) (ha : a ∈ l) :
    ∃ b, l.find? (fun o => o.id == a.id) = some b ∧ b.id = a.id := by
  have hs : (l.find? (fun o => o.id == a.id)).isSome :=
    List.find?_isSome.2 ⟨a, ha, by simp⟩
  obtain ⟨b, hb⟩ := Option.isSome_iff_exists.1 hs
  refine ⟨b, hb, ?_⟩
  have := List.find?_some hb
  exact eq_of_beq this

/-! ## Store-level helper lemmas -/

/-- Creating a notification never touches the orders collection. -/
@[simp] theorem createNotification_orders (s : Store) (ok : Bool) (m t : String)
    (oid : Option String) (d : Option (List (String × MVal))) (now : String) :
    (createNotification s ok m t oid d now).orders = s.orders := by
  cases ok <;> rfl

/-- A successful notification write appends exactly one document. -/
theorem createNotification_len (s : Store) (m t : String) (oid : Option String)
    (d : Option (List (String × MVal))) (now : String) :
    (createNotification s true m t oid d now).notifications.length =
      s.notifications.length + 1 := by
  simp [createNotification, Store.freshKey]

/-- Updating an order never touches the notifications collection. -/
@[simp] theorem updateOrderStatus_notifications (s : Store) (oid st : String)
    (md : Option (List (String × MVal))) (now : String) :
    (updateOrderStatus s oid st md now).notifications = s.notifications := rfl

/-- `setOrderFields` never changes the document id. -/
@[simp] theorem setOrderFields_id (o : Order) (st now : String)
    (md : Option (List (String × MVal))) :
    (setOrderFields o st now md).id = o.id := rfl

/-- Point lookup after `updateOrderStatus`: the found document is the one
found before, updated exactly when its id is the targeted id. -/
theorem getOrderById_update (s : Store) (oid st : String)
    (md : Option (List (String × MVal))) (now i : String) :
    getOrderById (updateOrderStatus s oid st md now) i =
      (getOrderById s i).map
        (fun o => if o.id == oid then setOrderFields o st now md else o) := by
  unfold getOrderById updateOrderStatus
  exact find?_map_keyPres s.orders Order.id _ i
    (fun a => by by_cases h : (a.id == oid) = true <;> simp [h])

/-- Lookup in a JS object spread: the update wins, otherwise the old value. -/
theorem lookupMVal_spreadMerge (old upd : List (String × MVal)) (k : String) :
    lookupMVal (spreadMerge old upd) k = (lookupMVal upd k).or (lookupMVal old k) := by
  unfold lookupMVal spreadMerge
  rw [List.find?_append]
  have hover : (old.map (fun p =>
      match upd.find? (fun q => q.1 == p.1) with
      | some q => (p.1, q.2)
      | none => p)).find? (fun p => p.1 == k)
      = (old.find? (fun p => p.1 == k)).map (fun p =>
          match upd.find? (fun q => q.1 == p.1) with
          | some q => (p.1, q.2)
          | none => p) := by
    exact find?_map_keyPres old (fun p => p.1) _ k
      (fun a => by cases h : upd.find? (fun q => q.1 == a.1) <;> simp)
  rw [hover]
  cases hold : old.find? (fun p => p.1 == k) with
  | some p =>
    have hbeq := List.find?_some hold
    have hpk : p.1 = k := eq_of_beq hbeq
    cases hupd : upd.find? (fun q => q.1 == k) with
    | some q => simp [Option.or, hpk, hupd]
    | none => simp [Option.or, hpk, hupd]
  | none =>
    have hfilter : (upd.filter (fun q => old.all (fun p => !(p.1 == q.1)))).find?
        (fun p => p.1 == k) = upd.find? (fun p => p.1 == k) := by
      apply find?_filter_of_imp
      intro x hx
      have hxk : x.1 = k := eq_of_beq hx
      rw [List.all_eq_true]
      intro p hp
      have hnone := List.find?_eq_none.1 hold p hp
      simp only [hxk]
      simpa using hnone
    rw [hfilter]
    cases upd.find? (fun p => p.1 == k) <;> simp [Option.or]

/-- The catch block of the STK push handler always answers 500 with the
thrown message. -/
theorem stkCatch_resp (fx : StkFX) (s : Store) (req : StkReq) (now msg : String)
    (tc pc : Bool) (site : StkThrowSite) :
    (stkCatch fx s req now msg tc pc site).resp = ⟨500, false, msg⟩ := rfl

/-- The catch block of the STK push handler never touches the orders. -/
theorem stkCatch_orders (fx : StkFX) (s : Store) (req : StkReq) (now msg : String)
    (tc pc : Bool) (site : StkThrowSite) :
    (stkCatch fx s req now msg tc pc site).store.orders = s.orders := by
  unfold stkCatch
  cases getOrderById s (req.orderId.getD "") <;> simp

/-- The token-call flag of the catch block is the one passed in. -/
@[simp] theorem stkCatch_tokenCalled (fx : StkFX) (s : Store) (req : StkReq)
    (now msg : String) (tc pc : Bool) (site : StkThrowSite) :
    (stkCatch fx s req now msg tc pc site).tokenCalled = tc := rfl

/-- The push-call flag of the catch block is the one passed in. -/
@[simp] theorem stkCatch_pushCalled (fx : StkFX) (s : Store) (req : StkReq)
    (now msg : String) (tc pc : Bool) (site : StkThrowSite) :
    (stkCatch fx s req now msg tc pc site).pushCalled = pc := rfl

/-- The throw-site recorded by the catch block is the one passed in. -/
@[simp] theorem stkCatch_thrownAt (fx : StkFX) (s : Store) (req : StkReq)
    (now msg : String) (tc pc : Bool) (site : StkThrowSite) :
    (stkCatch fx s req now msg tc pc site).thrownAt = some site := rfl

/-- Orders are untouched by a conditional best-effort notification write. -/
@[simp] theorem orders_ite_createNotification (c : Prop) [Decidable c] (s : Store)
    (ok : Bool) (m t : String) (oid : Option String)
    (d : Option (List (String × MVal))) (now : String) :
    (if c then createNotification s ok m t oid d now else s).orders = s.orders := by
  split <;> simp

/-- Notification writes only ever grow the notifications collection. -/
theorem createNotification_len_ge (s : Store) (ok : Bool) (m t : String)
    (oid : Option String) (d : Option (List (String × MVal))) (now : String) :
    s.notifications.length ≤ (createNotification s ok m t oid d now).notifications.length := by
  cases ok
  · simp [createNotification]
  · simp [createNotification, Store.freshKey]

/-- Lookup by id is blind to the notifications collection. -/
@[simp] theorem getOrderById_createNotification (s : Store) (ok : Bool) (m t : String)
    (oid : Option String) (d : Option (List (String × MVal))) (now i : String) :
    getOrderById (createNotification s ok m t oid d now) i = getOrderById s i := by
  unfold getOrderById
  rw [createNotification_orders]

/-- Lookup by id only depends on the orders collection. -/
theorem getOrderById_eq_of_orders (s₁ s₂ : Store) (h : s₁.orders = s₂.orders)
    (i : String) : getOrderById s₁ i = getOrderById s₂ i := by
  unfold getOrderById
  rw [h]

/-- Behaviour of the callback handler once an order has been matched:
with a writable store it always acknowledges `⟨0, "Success"⟩`, and the
orders collection becomes exactly the one produced by `updateOrderStatus`
with the branch's status and payment-detail object; moreover the
notification count strictly grows when the branch's notification write
succeeds. -/
theorem mpesaCallback_matched (cfg : EmailCfg) (fx : CallbackFX) (s : Store)
    (body : CallbackBody) (now : String) {inner : CallbackBodyInner}
    {stk : StkCallbackData} {order : Order}
    (hB : body.Body = some inner) (hs : inner.stkCallback = some stk)
    (hcid : truthyStr stk.CheckoutRequestID = true)
    (hfound : s.orders.find?
      (fun o => hasCheckoutId o (stk.CheckoutRequestID.getD "")) = some order)
    (hdb : fx.dbErr = false) :
    (stk.ResultCode = 0 →
      (mpesaCallback cfg fx s body now).resp = ⟨0, "Success"⟩ ∧
      (mpesaCallback cfg fx s body now).store.orders =
        (updateOrderStatus s order.id "paid"
          (some [("receiptNumber", MVal.vjson (jsOrDefault
                    (metaFieldValue stk.CallbackMetadata "MpesaReceiptNumber")
                    (JVal.jstr "Unknown"))),
                 ("amount", MVal.vjson (jsOrDefault
                    (metaFieldValue stk.CallbackMetadata "Amount") (JVal.jnum 0))),
                 ("phoneNumber", MVal.vjson (jsOrDefault
                    (metaFieldValue stk.CallbackMetadata "PhoneNumber")
                    (JVal.jstr "Unknown"))),
                 ("completedAt", MVal.vstr now),
                 ("mpesaCallback", MVal.vbody body)])
          now).orders ∧
      (fx.mainNotifOk = true →
        s.notifications.length < (mpesaCallback cfg fx s body now).store.notifications.length)) ∧
    (stk.ResultCode ≠ 0 →
      (mpesaCallback cfg fx s body now).resp = ⟨0, "Success"⟩ ∧
      (mpesaCallback cfg fx s body now).store.orders =
        (updateOrderStatus s order.id "payment_failed"
          (some [("reason", MVal.vstr stk.ResultDesc),
                 ("failedAt", MVal.vstr now),
                 ("mpesaCallback", MVal.vbody body)])
          now).orders ∧
      (fx.failNotifOk = true →
        s.notifications.length < (mpesaCallback cfg fx s body now).store.notifications.length)) := by
  constructor
  · intro h0
    have hrc : (stk.ResultCode == 0) = true := by simp [h0]
    unfold mpesaCallback
    simp only [hB, hs, hcid, hfound, hrc, hdb, Bool.not_true, Bool.false_eq_true,
      if_false, if_true]
    refine ⟨by trivial, ?_, ?_⟩
    · rw [createNotification_orders]
      split <;> simp
    · intro hm
      rw [hm, createNotification_len]
      refine Nat.lt_succ_of_le ?_
      split
      · exact le_trans (by simp) (createNotification_len_ge _ _ _ _ _ _ _)
      · simp
  · intro h0
    have hrc : (stk.ResultCode == 0) = false := by
      simp only [beq_eq_false_iff_ne, ne_eq]
      exact h0
    unfold mpesaCallback
    simp only [hB, hs, hcid, hfound, hrc, hdb, Bool.not_true, Bool.false_eq_true,
      if_false, if_true]
    refine ⟨by trivial, ?_, ?_⟩
    · rw [createNotification_orders]
    · intro hm
      rw [hm, createNotification_len]
      refine Nat.lt_succ_of_le ?_
      simp

/-! ## Claims -/

/-- C5: phone normalization is total and deterministic: each of
`"0712345678"`, `"712345678"`, `"254712345678"`, `"+254712345678"`
normalizes to exactly `"254712345678"`, and any non-empty input whose
digit-only coercion is not exactly 12 digits is rejected with an error
naming the resulting digit count. -/
theorem phone_normalization_deterministic :
    formatPhone "0712345678" = Except.ok "254712345678" ∧
    formatPhone "712345678" = Except.ok "254712345678" ∧
    formatPhone "254712345678" = Except.ok "254712345678" ∧
    formatPhone "+254712345678" = Except.ok "254712345678" ∧
    ∀ p : String, p ≠ "" → (coercePhoneDigits p).length ≠ 12 →
      formatPhone p = Except.error ("Invalid phone number: " ++ p ++
        ". Expected 12 digits after formatting, got " ++
        toString (coercePhoneDigits p).length) := by
  refine ⟨rfl, rfl, rfl, rfl, ?_⟩
  intro p hne hlen
  unfold formatPhone
  have h1 : (p == "") = false := beq_eq_false_iff_ne.2 hne
  have h2 : ((coercePhoneDigits p).length == 12) = false := beq_eq_false_iff_ne.2 hlen
  simp [h1, h2]

/-- Witness for C5: the rejection clause evaluated at `"12345"`, whose
digit-only coercion has 8 digits. -/
theorem phone_normalization_deterministic_witness :
    formatPhone "12345" = Except.error
      "Invalid phone number: 12345. Expected 12 digits after formatting, got 8" :=
  phone_normalization_deterministic.2.2.2.2 "12345" (by decide) (by decide)

/-- C7: every create-order request with an empty items list, a missing or
non-positive total, missing customer name/phone/address, or a missing
payment method is answered 400 with a validation message, and the store is
left completely unchanged (no order, no notification). -/
theorem order_validation_gate (fx : OrderFX) (s : Store) (req : OrderReq)
    (now : String)
    (h : req.items = none ∨ req.items = some [] ∨
         req.total = none ∨ (∃ t, req.total = some t ∧ t ≤ 0) ∨
         req.customerInfo = none ∨
         (∃ ci, req.customerInfo = some ci ∧
            (truthyStr ci.name = false ∨ truthyStr ci.phone = false ∨
             truthyStr ci.deliveryAddress = false)) ∨
         truthyStr req.paymentMethod = false) :
    ∃ msg, createOrder fx s req now = ⟨⟨400, false, msg⟩, none, s⟩ := by
  unfold createOrder
  repeat' (first | exact ⟨_, rfl⟩ | split)
  all_goals exfalso
  all_goals rcases h with h | h | h | ⟨t, ht, htle⟩ | h | ⟨ci, hci, hbad⟩ | h <;>
    simp_all <;> omega

/-- Witness for C7: the gate evaluated at a request with an empty items list. -/
theorem order_validation_gate_witness :
    ∃ msg, createOrder ⟨none, true⟩ demoStoreNew demoEmptyItemsReq "T1" =
      ⟨⟨400, false, msg⟩, none, demoStoreNew⟩ :=
  order_validation_gate ⟨none, true⟩ demoStoreNew demoEmptyItemsReq "T1"
    (Or.inr (Or.inl rfl))

/-- C10: `updateOrderStatus` mutates only `status`, `updatedAt` and
`mpesaData` of the targeted order: `id`, `items`, `total`, `customerInfo`,
`paymentMethod` and `createdAt` survive; supplied payment data is merged
key-by-key into the previously stored `mpesaData`, so earlier keys survive
unless overwritten; other orders and the notifications are untouched. -/
theorem updateOrderStatus_frame (s : Store) (oid st : String)
    (md : Option (List (String × MVal))) (now : String) (o : Order)
    (h : getOrderById s oid = some o) :
    (∃ o', getOrderById (updateOrderStatus s oid st md now) oid = some o' ∧
      o'.id = o.id ∧ o'.items = o.items ∧ o'.total = o.total ∧
      o'.customerInfo = o.customerInfo ∧ o'.paymentMethod = o.paymentMethod ∧
      o'.createdAt = o.createdAt ∧ o'.status = st ∧ o'.updatedAt = now ∧
      (md = none → o'.mpesaData = o.mpesaData) ∧
      (∀ m, md = some m → ∀ k, lookupMVal o'.mpesaData k =
        (lookupMVal m k).or (lookupMVal o.mpesaData k))) ∧
    (updateOrderStatus s oid st md now).notifications = s.notifications ∧
    (∀ j, j ≠ oid → getOrderById (updateOrderStatus s oid st md now) j =
      getOrderById s j) := by
  have h' : s.orders.find? (fun x => x.id == oid) = some o := h
  have hid : (o.id == oid) = true := by
    have := List.find?_some h'
    simpa using this
  refine ⟨?_, rfl, ?_⟩
  · rw [getOrderById_update, h]
    refine ⟨setOrderFields o st now md, ?_, rfl, rfl, rfl, rfl, rfl,
      rfl, rfl, rfl, ?_, ?_⟩
    · simp only [Option.map_some']
      rw [if_pos hid]
    · intro hmd
      simp [setOrderFields, hmd]
    · intro m hmd k
      simp [setOrderFields, hmd, lookupMVal_spreadMerge]
  · intro j hj
    rw [getOrderById_update]
    cases hjf : getOrderById s j with
    | none => rfl
    | some oj =>
      have hjf' : s.orders.find? (fun x => x.id == j) = some oj := hjf
      have hjb : (oj.id == j) = true := by
        have := List.find?_some hjf'
        simpa using this
      have hne : ¬((oj.id == oid) = true) := by
        rw [eq_of_beq hjb]
        simp [hj]
      simp only [Option.map_some']
      rw [if_neg hne]

/-- Witness for C10: the frame condition evaluated on the pending demo
order, updating it to `paid` while merging one new key. -/
theorem updateOrderStatus_frame_witness :
    (∃ o', getOrderById (updateOrderStatus demoStore0 "ord-1" "paid"
        (some [("receiptNumber", MVal.vstr "XYZ")]) "T9") "ord-1" = some o' ∧
      o'.id = demoPendingOrder.id ∧ o'.items = demoPendingOrder.items ∧
      o'.total = demoPendingOrder.total ∧
      o'.customerInfo = demoPendingOrder.customerInfo ∧
      o'.paymentMethod = demoPendingOrder.paymentMethod ∧
      o'.createdAt = demoPendingOrder.createdAt ∧
      o'.status = "paid" ∧ o'.updatedAt = "T9" ∧
      (some [("receiptNumber", MVal.vstr "XYZ")] = none →
        o'.mpesaData = demoPendingOrder.mpesaData) ∧
      (∀ m, some [("receiptNumber", MVal.vstr "XYZ")] = some m → ∀ k,
        lookupMVal o'.mpesaData k =
          (lookupMVal m k).or (lookupMVal demoPendingOrder.mpesaData k))) ∧
    (updateOrderStatus demoStore0 "ord-1" "paid"
        (some [("receiptNumber", MVal.vstr "XYZ")]) "T9").notifications =
      demoStore0.notifications ∧
    (∀ j, j ≠ "ord-1" → getOrderById (updateOrderStatus demoStore0 "ord-1" "paid"
        (some [("receiptNumber", MVal.vstr "XYZ")]) "T9") j =
      getOrderById demoStore0 j) :=
  updateOrderStatus_frame demoStore0 "ord-1" "paid"
    (some [("receiptNumber", MVal.vstr "XYZ")]) "T9" demoPendingOrder rfl

/-- Counterexample for C2: the claim says an unmatched callback is answered
with result code 0; on an empty store the endpoint in fact answers result
code 1 (`Order not found`), though it indeed mutates nothing. -/
theorem unmatched_callback_counterexample :
    (mpesaCallback demoCfg demoCbFX ⟨0, [], []⟩ demoBody "T1").resp =
      ⟨1, "Order not found"⟩ ∧
    ¬((mpesaCallback demoCfg demoCbFX ⟨0, [], []⟩ demoBody "T1").resp.ResultCode = 0) ∧
    (mpesaCallback demoCfg demoCbFX ⟨0, [], []⟩ demoBody "T1").store = ⟨0, [], []⟩ :=
  ⟨rfl, by decide, rfl⟩

/-- C2 amended: a well-formed callback whose correlation id matches no
stored order is acknowledged over HTTP 200 with result code 1
(`Order not found`, a retry-request acknowledgement, not the success code 0)
and mutates nothing: the store is returned exactly as it was. -/
theorem unmatched_callback_safety (cfg : EmailCfg) (fx : CallbackFX) (s : Store)
    (body : CallbackBody) (now : String) {inner : CallbackBodyInner}
    {stk : StkCallbackData}
    (hB : body.Body = some inner) (hs : inner.stkCallback = some stk)
    (hcid : truthyStr stk.CheckoutRequestID = true)
    (hnone : s.orders.find?
      (fun o => hasCheckoutId o (stk.CheckoutRequestID.getD "")) = none) :
    mpesaCallback cfg fx s body now = ⟨⟨1, "Order not found"⟩, s⟩ := by
  unfold mpesaCallback
  simp [hB, hs, hcid, hnone]

/-- Witness for C2: the amended statement evaluated on the empty store. -/
theorem unmatched_callback_safety_witness :
    mpesaCallback demoCfg demoCbFX ⟨0, [], []⟩ demoBody "T1" =
      ⟨⟨1, "Order not found"⟩, ⟨0, [], []⟩⟩ :=
  unmatched_callback_safety demoCfg demoCbFX ⟨0, [], []⟩ demoBody "T1"
    rfl rfl (by decide) rfl

/-- C3: a matched callback with result code 0 transitions the order to
`paid`, recording receipt number, amount and phone number extracted from
the metadata list by field name — with the known sentinels (`"Unknown"`
for receipt/phone, `0` for amount) substituted when a field is absent,
never a failure — plus a completion timestamp; any non-zero result code
transitions the order to `payment_failed`, recording the gateway's
description as the failure reason and a failure timestamp. -/
theorem callback_result_branches (cfg : EmailCfg) (fx : CallbackFX) (s : Store)
    (body : CallbackBody) (now : String) {inner : CallbackBodyInner}
    {stk : StkCallbackData} {order : Order}
    (hB : body.Body = some inner) (hs : inner.stkCallback = some stk)
    (hcid : truthyStr stk.CheckoutRequestID = true)
    (hfound : s.orders.find?
      (fun o => hasCheckoutId o (stk.CheckoutRequestID.getD "")) = some order)
    (hdb : fx.dbErr = false) :
    (stk.ResultCode = 0 →
      (mpesaCallback cfg fx s body now).resp = ⟨0, "Success"⟩ ∧
      ∃ o', getOrderById (mpesaCallback cfg fx s body now).store order.id = some o' ∧
        o'.status = "paid" ∧
        lookupMVal o'.mpesaData "receiptNumber" = some (MVal.vjson (jsOrDefault
          (metaFieldValue stk.CallbackMetadata "MpesaReceiptNumber")
          (JVal.jstr "Unknown"))) ∧
        lookupMVal o'.mpesaData "amount" = some (MVal.vjson (jsOrDefault
          (metaFieldValue stk.CallbackMetadata "Amount") (JVal.jnum 0))) ∧
        lookupMVal o'.mpesaData "phoneNumber" = some (MVal.vjson (jsOrDefault
          (metaFieldValue stk.CallbackMetadata "PhoneNumber")
          (JVal.jstr "Unknown"))) ∧
        lookupMVal o'.mpesaData "completedAt" = some (MVal.vstr now) ∧
        (metaFieldValue stk.CallbackMetadata "MpesaReceiptNumber" = none →
          lookupMVal o'.mpesaData "receiptNumber" =
            some (MVal.vjson (JVal.jstr "Unknown"))) ∧
        (metaFieldValue stk.CallbackMetadata "PhoneNumber" = none →
          lookupMVal o'.mpesaData "phoneNumber" =
            some (MVal.vjson (JVal.jstr "Unknown"))) ∧
        (metaFieldValue stk.CallbackMetadata "Amount" = none →
          lookupMVal o'.mpesaData "amount" = some (MVal.vjson (JVal.jnum 0)))) ∧
    (stk.ResultCode ≠ 0 →
      (mpesaCallback cfg fx s body now).resp = ⟨0, "Success"⟩ ∧
      ∃ o', getOrderById (mpesaCallback cfg fx s body now).store order.id = some o' ∧
        o'.status = "payment_failed" ∧
        lookupMVal o'.mpesaData "reason" = some (MVal.vstr stk.ResultDesc) ∧
        lookupMVal o'.mpesaData "failedAt" = some (MVal.vstr now)) := by
  have hmem := List.mem_of_find?_eq_some hfound
  obtain ⟨oz, hoz, hozid⟩ := find?_id_of_mem s.orders order hmem
  have hoz' : getOrderById s order.id = some oz := hoz
  have hbeq : (oz.id == order.id) = true := by simp [hozid]
  constructor
  · intro h0
    obtain ⟨hresp, horders, -⟩ :=
      (mpesaCallback_matched cfg fx s body now hB hs hcid hfound hdb).1 h0
    refine ⟨hresp, ?_⟩
    have hgo := getOrderById_eq_of_orders _ _ horders order.id
    rw [getOrderById_update, hoz'] at hgo
    simp only [Option.map_some'] at hgo
    rw [if_pos hbeq] at hgo
    refine ⟨_, hgo, rfl, ?_, ?_, ?_, ?_, ?_, ?_, ?_⟩
    · simp only [setOrderFields]
      rw [lookupMVal_spreadMerge]
      rfl
    · simp only [setOrderFields]
      rw [lookupMVal_spreadMerge]
      rfl
    · simp only [setOrderFields]
      rw [lookupMVal_spreadMerge]
      rfl
    · simp only [setOrderFields]
      rw [lookupMVal_spreadMerge]
      rfl
    · intro habs
      simp only [setOrderFields]
      rw [lookupMVal_spreadMerge, habs]
      rfl
    · intro habs
      simp only [setOrderFields]
      rw [lookupMVal_spreadMerge, habs]
      rfl
    · intro habs
      simp only [setOrderFields]
      rw [lookupMVal_spreadMerge, habs]
      rfl
  · intro h0
    obtain ⟨hresp, horders, -⟩ :=
      (mpesaCallback_matched cfg fx s body now hB hs hcid hfound hdb).2 h0
    refine ⟨hresp, ?_⟩
    have hgo := getOrderById_eq_of_orders _ _ horders order.id
    rw [getOrderById_update, hoz'] at hgo
    simp only [Option.map_some'] at hgo
    rw [if_pos hbeq] at hgo
    refine ⟨_, hgo, rfl, ?_, ?_⟩
    · simp only [setOrderFields]
      rw [lookupMVal_spreadMerge]
      rfl
    · simp only [setOrderFields]
      rw [lookupMVal_spreadMerge]
      rfl

/-- Witness for C3: the success branch on the pending demo order, and the
failure branch on a second pending store. -/
theorem callback_result_branches_witness :
    ((mpesaCallback demoCfg demoCbFX demoStore0 demoBody "T1").resp = ⟨0, "Success"⟩ ∧
      ∃ o', getOrderById (mpesaCallback demoCfg demoCbFX demoStore0 demoBody "T1").store
          "ord-1" = some o' ∧
        o'.status = "paid" ∧
        lookupMVal o'.mpesaData "receiptNumber" =
          some (MVal.vjson (JVal.jstr "ABC123")) ∧
        lookupMVal o'.mpesaData "amount" = some (MVal.vjson (JVal.jnum 1500)) ∧
        lookupMVal o'.mpesaData "phoneNumber" =
          some (MVal.vjson (JVal.jnum 254712345678)) ∧
        lookupMVal o'.mpesaData "completedAt" = some (MVal.vstr "T1")) ∧
    ((mpesaCallback demoCfg demoCbFX demoStore0 demoFailBody "T1").resp = ⟨0, "Success"⟩ ∧
      ∃ o', getOrderById (mpesaCallback demoCfg demoCbFX demoStore0 demoFailBody "T1").store
          "ord-1" = some o' ∧
        o'.status = "payment_failed" ∧
        lookupMVal o'.mpesaData "reason" =
          some (MVal.vstr "Request cancelled by user") ∧
        lookupMVal o'.mpesaData "failedAt" = some (MVal.vstr "T1")) := by
  constructor
  · obtain ⟨hresp, o', hget, hst, hr, ha, hp, hc, -⟩ :=
      (callback_result_branches demoCfg demoCbFX demoStore0 demoBody "T1"
        rfl rfl (by decide) rfl rfl).1 rfl
    exact ⟨hresp, o', hget, hst, hr, ha, hp, hc⟩
  · obtain ⟨hresp, o', hget, hst, hr, hf⟩ :=
      (callback_result_branches demoCfg demoCbFX demoStore0 demoFailBody "T1"
        rfl rfl (by decide) rfl rfl).2 (by decide)
    exact ⟨hresp, o', hget, hst, hr, hf⟩

/-- Counterexample for C1: the callback handler has no idempotency check.
After a first delivery of the success callback the order is `paid` and one
notification exists; redelivering the identical payload is acknowledged
`⟨0, "Success"⟩` again, but it creates a second notification (count 1 → 2)
and overwrites `paymentDetails.completedAt` with the new delivery time, so
the redelivery is not a no-op. -/
theorem callback_redelivery_counterexample :
    (getOrderById demoFirstDelivery "ord-1").map Order.status = some "paid" ∧
    demoFirstDelivery.notifications.length = 1 ∧
    demoSecondDelivery.resp = ⟨0, "Success"⟩ ∧
    demoSecondDelivery.store.notifications.length = 2 ∧
    ¬(demoSecondDelivery.store.notifications.length =
        demoFirstDelivery.notifications.length) ∧
    (getOrderById demoSecondDelivery.store "ord-1").map
        (fun o => lookupMVal o.mpesaData "completedAt") =
      some (some (MVal.vstr "T2")) ∧
    ¬((getOrderById demoSecondDelivery.store "ord-1").map
        (fun o => lookupMVal o.mpesaData "completedAt") =
      (getOrderById demoFirstDelivery "ord-1").map
        (fun o => lookupMVal o.mpesaData "completedAt")) := by
  refine ⟨rfl, rfl, rfl, rfl, by decide, rfl, ?_⟩
  intro h
  have h' : (some (some (MVal.vstr "T2")) : Option (Option MVal)) =
      some (some (MVal.vstr "T1")) := h
  simp at h'

/-- C1 amended: redelivering the identical callback payload to an order that
is already `paid` (or `payment_failed`) is acknowledged `⟨0, "Success"⟩` and
leaves the order's status at its current value, but it is not a no-op: the
handler re-runs `updateOrderStatus`, re-merging `paymentDetails` and stamping
a fresh `completedAt`/`failedAt` timestamp, and it re-creates notifications
(the count strictly grows whenever the branch's notification write succeeds)
and re-sends the emails; the source has no idempotency check. -/
theorem callback_redelivery_not_noop (cfg : EmailCfg) (fx : CallbackFX) (s : Store)
    (body : CallbackBody) (now : String) {inner : CallbackBodyInner}
    {stk : StkCallbackData} {order : Order}
    (hB : body.Body = some inner) (hs : inner.stkCallback = some stk)
    (hcid : truthyStr stk.CheckoutRequestID = true)
    (hfound : s.orders.find?
      (fun o => hasCheckoutId o (stk.CheckoutRequestID.getD "")) = some order)
    (hdb : fx.dbErr = false)
    (hterm : (order.status = "paid" ∧ stk.ResultCode = 0) ∨
             (order.status = "payment_failed" ∧ stk.ResultCode ≠ 0))
    (hnotif : fx.mainNotifOk = true ∧ fx.failNotifOk = true) :
    (mpesaCallback cfg fx s body now).resp = ⟨0, "Success"⟩ ∧
    (∃ o', getOrderById (mpesaCallback cfg fx s body now).store order.id = some o' ∧
      o'.status = order.status ∧ o'.updatedAt = now ∧
      (stk.ResultCode = 0 →
        lookupMVal o'.mpesaData "completedAt" = some (MVal.vstr now)) ∧
      (stk.ResultCode ≠ 0 →
        lookupMVal o'.mpesaData "failedAt" = some (MVal.vstr now))) ∧
    s.notifications.length < (mpesaCallback cfg fx s body now).store.notifications.length := by
  have hmem := List.mem_of_find?_eq_some hfound
  obtain ⟨oz, hoz, hozid⟩ := find?_id_of_mem s.orders order hmem
  have hoz' : getOrderById s order.id = some oz := hoz
  have hbeq : (oz.id == order.id) = true := by simp [hozid]
  rcases hterm with ⟨hstat, h0⟩ | ⟨hstat, h0⟩
  · obtain ⟨hresp, horders, hlen⟩ :=
      (mpesaCallback_matched cfg fx s body now hB hs hcid hfound hdb).1 h0
    refine ⟨hresp, ?_, hlen hnotif.1⟩
    have hgo := getOrderById_eq_of_orders _ _ horders order.id
    rw [getOrderById_update, hoz'] at hgo
    simp only [Option.map_some'] at hgo
    rw [if_pos hbeq] at hgo
    refine ⟨_, hgo, by rw [hstat]; rfl, rfl, ?_, ?_⟩
    · intro _
      simp only [setOrderFields]
      rw [lookupMVal_spreadMerge]
      rfl
    · intro hne
      exact absurd h0 hne
  · obtain ⟨hresp, horders, hlen⟩ :=
      (mpesaCallback_matched cfg fx s body now hB hs hcid hfound hdb).2 h0
    refine ⟨hresp, ?_, hlen hnotif.2⟩
    have hgo := getOrderById_eq_of_orders _ _ horders order.id
    rw [getOrderById_update, hoz'] at hgo
    simp only [Option.map_some'] at hgo
    rw [if_pos hbeq] at hgo
    refine ⟨_, hgo, by rw [hstat]; rfl, rfl, ?_, ?_⟩
    · intro h0'
      exact absurd h0' h0
    · intro _
      simp only [setOrderFields]
      rw [lookupMVal_spreadMerge]
      rfl

/-- Witness for C1: the amended statement applied to the redelivery of the
identical success payload to the already-paid demo order. -/
theorem callback_redelivery_not_noop_witness :
    (mpesaCallback demoCfg demoCbFX demoFirstDelivery demoBody "T2").resp =
      ⟨0, "Success"⟩ ∧
    (∃ o', getOrderById
        (mpesaCallback demoCfg demoCbFX demoFirstDelivery demoBody "T2").store
        "ord-1" = some o' ∧
      o'.status = "paid" ∧ o'.updatedAt = "T2" ∧
      (demoStkData.ResultCode = 0 →
        lookupMVal o'.mpesaData "completedAt" = some (MVal.vstr "T2")) ∧
      (demoStkData.ResultCode ≠ 0 →
        lookupMVal o'.mpesaData "failedAt" = some (MVal.vstr "T2"))) ∧
    demoFirstDelivery.notifications.length <
      (mpesaCallback demoCfg demoCbFX demoFirstDelivery demoBody "T2").store.notifications.length :=
  callback_redelivery_not_noop demoCfg demoCbFX demoFirstDelivery demoBody "T2"
    rfl rfl (by decide) rfl rfl (Or.inl ⟨rfl, rfl⟩) ⟨rfl, rfl⟩

/-- Counterexample for C4: the claim says an invalid phone aborts the STK
push before any gateway call and yields a 400 validation error.  With a
valid order and an unparseable phone `"12345"`, the handler in fact calls
the token endpoint first (`tokenCalled = true`) and answers 500, not 400;
only the order state is indeed untouched. -/
theorem stk_phone_not_before_token_counterexample :
    (stkPush demoStkFX demoStoreNew demoBadPhoneStkReq "T1").tokenCalled = true ∧
    (stkPush demoStkFX demoStoreNew demoBadPhoneStkReq "T1").resp.status = 500 ∧
    ¬((stkPush demoStkFX demoStoreNew demoBadPhoneStkReq "T1").resp.status = 400) ∧
    (stkPush demoStkFX demoStoreNew demoBadPhoneStkReq "T1").store.orders =
      demoStoreNew.orders :=
  ⟨rfl, rfl, by decide, rfl⟩

/-- C4 amended: in the STK push the token is obtained before the phone is
normalized, so an invalid phone aborts after the token call but before any
push request: no push call, no order state change, and the validation
message is surfaced as a 500 error thrown at the phone-formatting site. -/
theorem stk_invalid_phone_aborts (fx : StkFX) (s : Store) (req : StkReq)
    (now : String) {amount : Int} {order : Order} {t msg : String}
    (hph : truthyStr req.phoneNumber = true)
    (hamt : req.amount = some amount) (hpos : 0 < amount)
    (hoid : truthyStr req.orderId = true)
    (hord : getOrderById s (req.orderId.getD "") = some order)
    (ht : fx.token = Except.ok t)
    (hfmt : formatPhone (req.phoneNumber.getD "") = Except.error msg) :
    (stkPush fx s req now).tokenCalled = true ∧
    (stkPush fx s req now).pushCalled = false ∧
    (stkPush fx s req now).thrownAt = some StkThrowSite.phoneSite ∧
    (stkPush fx s req now).resp = ⟨500, false, msg⟩ ∧
    (stkPush fx s req now).store.orders = s.orders := by
  have hle : ¬(amount ≤ 0) := not_le.2 hpos
  unfold stkPush
  simp only [hph, hamt, hoid, hord, ht, hfmt, hle, Bool.not_true,
    Bool.false_eq_true, if_false, ite_false]
  exact ⟨rfl, rfl, rfl, rfl, stkCatch_orders _ _ _ _ _ _ _ _⟩

/-- Witness for C4: the amended statement evaluated at the bad-phone request. -/
theorem stk_invalid_phone_aborts_witness :
    (stkPush demoStkFX demoStoreNew demoBadPhoneStkReq "T1").tokenCalled = true ∧
    (stkPush demoStkFX demoStoreNew demoBadPhoneStkReq "T1").pushCalled = false ∧
    (stkPush demoStkFX demoStoreNew demoBadPhoneStkReq "T1").thrownAt =
      some StkThrowSite.phoneSite ∧
    (stkPush demoStkFX demoStoreNew demoBadPhoneStkReq "T1").resp =
      ⟨500, false,
        "Invalid phone number: 12345. Expected 12 digits after formatting, got 8"⟩ ∧
    (stkPush demoStkFX demoStoreNew demoBadPhoneStkReq "T1").store.orders =
      demoStoreNew.orders :=
  stk_invalid_phone_aborts demoStkFX demoStoreNew demoBadPhoneStkReq "T1"
    rfl rfl (by decide) rfl rfl rfl rfl

/-- C6: when the gateway accepts the push, the order is transitioned to
`payment_pending` with the gateway's correlation id (`checkoutRequestId`)
and request id stored, and this write is part of the handler's state before
the success response exists: the response is successful exactly when the
write succeeded; a failing write is answered 500 with the store error's
message, thrown at the store-write site (distinct from the gateway site),
leaving the orders unchanged. -/
theorem stk_pending_write (fx : StkFX) (s : Store) (req : StkReq) (now : String)
    {amount : Int} {order : Order} {t phone : String} {gw : PushResp}
    (hph : truthyStr req.phoneNumber = true)
    (hamt : req.amount = some amount) (hpos : 0 < amount)
    (hoid : truthyStr req.orderId = true)
    (hord : getOrderById s (req.orderId.getD "") = some order)
    (ht : fx.token = Except.ok t)
    (hfmt : formatPhone (req.phoneNumber.getD "") = Except.ok phone)
    (hpush : fx.push = Except.ok gw) :
    ((stkPush fx s req now).resp.success = true ↔ fx.updateErr = none) ∧
    (fx.updateErr = none →
      (stkPush fx s req now).resp = ⟨200, true,
        "STK Push initiated successfully. Check your phone to complete payment."⟩ ∧
      ∃ o', getOrderById (stkPush fx s req now).store (req.orderId.getD "") = some o' ∧
        o'.status = "payment_pending" ∧ o'.updatedAt = now ∧
        lookupMVal o'.mpesaData "checkoutRequestId" =
          some (MVal.vstr gw.CheckoutRequestID) ∧
        lookupMVal o'.mpesaData "merchantRequestId" =
          some (MVal.vstr gw.MerchantRequestID) ∧
        lookupMVal o'.mpesaData "phoneNumber" = some (MVal.vstr phone) ∧
        lookupMVal o'.mpesaData "amount" = some (MVal.vnum amount)) ∧
    (∀ m, fx.updateErr = some m →
      (stkPush fx s req now).resp = ⟨500, false, m⟩ ∧
      (stkPush fx s req now).thrownAt = some StkThrowSite.storeSite ∧
      (stkPush fx s req now).store.orders = s.orders) := by
  have hle : ¬(amount ≤ 0) := not_le.2 hpos
  have hidbeq : (order.id == req.orderId.getD "") = true := by
    have := List.find?_some (hord : List.find? (fun o => o.id == req.orderId.getD "") s.orders = some order)
    simpa using this
  unfold stkPush
  simp only [hph, hamt, hoid, hord, ht, hfmt, hpush, hle, Bool.not_true,
    Bool.false_eq_true, if_false, ite_false]
  cases hupd : fx.updateErr with
  | some m =>
    refine ⟨?_, ?_, ?_⟩
    · rw [stkCatch_resp]
      simp
    · intro h
      exact absurd h (by simp)
    · intro m' hm'
      have hm : m' = m := by
        injection hm' with h
        exact h.symm
      subst hm
      exact ⟨rfl, rfl, stkCatch_orders _ _ _ _ _ _ _ _⟩
  | none =>
    refine ⟨by simp, ?_, ?_⟩
    · intro _
      refine ⟨rfl, ?_⟩
      rw [getOrderById_createNotification, getOrderById_update, hord]
      simp only [Option.map_some']
      rw [if_pos hidbeq]
      refine ⟨_, rfl, rfl, rfl, ?_, ?_, ?_, ?_⟩
      · simp only [setOrderFields]
        rw [lookupMVal_spreadMerge]
        rfl
      · simp only [setOrderFields]
        rw [lookupMVal_spreadMerge]
        rfl
      · simp only [setOrderFields]
        rw [lookupMVal_spreadMerge]
        rfl
      · simp only [setOrderFields]
        rw [lookupMVal_spreadMerge]
        rfl
    · intro m hm
      exact absurd hm (by simp)

/-- Witness for C6: the pending-write contract evaluated on the demo order
with the gateway accepting and the write succeeding. -/
theorem stk_pending_write_witness :
    ((stkPush demoStkFX demoStoreNew demoStkReq "T1").resp.success = true ↔
      demoStkFX.updateErr = none) ∧
    (demoStkFX.updateErr = none →
      (stkPush demoStkFX demoStoreNew demoStkReq "T1").resp = ⟨200, true,
        "STK Push initiated successfully. Check your phone to complete payment."⟩ ∧
      ∃ o', getOrderById (stkPush demoStkFX demoStoreNew demoStkReq "T1").store
          "ord-1" = some o' ∧
        o'.status = "payment_pending" ∧ o'.updatedAt = "T1" ∧
        lookupMVal o'.mpesaData "checkoutRequestId" = some (MVal.vstr "ws_CO_123") ∧
        lookupMVal o'.mpesaData "merchantRequestId" = some (MVal.vstr "mer-1") ∧
        lookupMVal o'.mpesaData "phoneNumber" = some (MVal.vstr "254712345678") ∧
        lookupMVal o'.mpesaData "amount" = some (MVal.vnum 1500)) ∧
    (∀ m, demoStkFX.updateErr = some m →
      (stkPush demoStkFX demoStoreNew demoStkReq "T1").resp = ⟨500, false, m⟩ ∧
      (stkPush demoStkFX demoStoreNew demoStkReq "T1").thrownAt =
        some StkThrowSite.storeSite ∧
      (stkPush demoStkFX demoStoreNew demoStkReq "T1").store.orders =
        demoStoreNew.orders) :=
  stk_pending_write demoStkFX demoStoreNew demoStkReq "T1"
    rfl rfl (by decide) rfl rfl rfl rfl rfl

/-- The create-order handler's response, returned order and orders
collection do not depend on the notification write's outcome. -/
theorem createOrder_fx_inv (se : Option String) (a b : Bool) (s : Store)
    (req : OrderReq) (now : String) :
    ((createOrder ⟨se, a⟩ s req now).resp, (createOrder ⟨se, a⟩ s req now).order,
      (createOrder ⟨se, a⟩ s req now).store.orders) =
    ((createOrder ⟨se, b⟩ s req now).resp, (createOrder ⟨se, b⟩ s req now).order,
      (createOrder ⟨se, b⟩ s req now).store.orders) := by
  unfold createOrder
  dsimp only
  repeat' (first | rfl | split)
  all_goals simp

/-- The STK push handler's response, orders collection, gateway-call flags
and throw site do not depend on the outcomes of the two notification writes. -/
theorem stkPush_fx_inv (tok : Except String String) (push : Except String PushResp)
    (upd : Option String) (a₁ a₂ b₁ b₂ : Bool) (s : Store) (req : StkReq)
    (now : String) :
    ((stkPush ⟨tok, push, upd, a₁, a₂⟩ s req now).resp,
     (stkPush ⟨tok, push, upd, a₁, a₂⟩ s req now).store.orders,
     (stkPush ⟨tok, push, upd, a₁, a₂⟩ s req now).tokenCalled,
     (stkPush ⟨tok, push, upd, a₁, a₂⟩ s req now).pushCalled,
     (stkPush ⟨tok, push, upd, a₁, a₂⟩ s req now).thrownAt) =
    ((stkPush ⟨tok, push, upd, b₁, b₂⟩ s req now).resp,
     (stkPush ⟨tok, push, upd, b₁, b₂⟩ s req now).store.orders,
     (stkPush ⟨tok, push, upd, b₁, b₂⟩ s req now).tokenCalled,
     (stkPush ⟨tok, push, upd, b₁, b₂⟩ s req now).pushCalled,
     (stkPush ⟨tok, push, upd, b₁, b₂⟩ s req now).thrownAt) := by
  unfold stkPush
  dsimp only
  repeat' (first | rfl | split)
  all_goals simp [stkCatch_resp, stkCatch_orders]

/-- The callback handler's response and orders collection do not depend on
the outcomes of the email sends and notification writes. -/
theorem mpesaCallback_fx_inv (db : Bool) (c₁ c₂ c₃ c₄ c₅ d₁ d₂ d₃ d₄ d₅ : Bool)
    (cfg : EmailCfg) (s : Store) (body : CallbackBody) (now : String) :
    ((mpesaCallback cfg ⟨db, c₁, c₂, c₃, c₄, c₅⟩ s body now).resp,
     (mpesaCallback cfg ⟨db, c₁, c₂, c₃, c₄, c₅⟩ s body now).store.orders) =
    ((mpesaCallback cfg ⟨db, d₁, d₂, d₃, d₄, d₅⟩ s body now).resp,
     (mpesaCallback cfg ⟨db, d₁, d₂, d₃, d₄, d₅⟩ s body now).store.orders) := by
  unfold mpesaCallback
  dsimp only
  repeat' (first | rfl | split)
  all_goals simp

/-- C9: failures of notification writes and confirmation/admin email sends
are swallowed inside the side-effect operations, so each parent handler
(order creation, STK push initiation, callback processing) produces the
same response, the same returned order and the same orders collection as
it would have had the side effects succeeded. -/
theorem side_effect_failures_isolated :
    (∀ (se : Option String) (a b : Bool) (s : Store) (req : OrderReq) (now : String),
      (createOrder ⟨se, a⟩ s req now).resp = (createOrder ⟨se, b⟩ s req now).resp ∧
      (createOrder ⟨se, a⟩ s req now).order = (createOrder ⟨se, b⟩ s req now).order ∧
      (createOrder ⟨se, a⟩ s req now).store.orders =
        (createOrder ⟨se, b⟩ s req now).store.orders) ∧
    (∀ (tok : Except String String) (push : Except String PushResp)
        (upd : Option String) (a₁ a₂ b₁ b₂ : Bool) (s : Store) (req : StkReq)
        (now : String),
      (stkPush ⟨tok, push, upd, a₁, a₂⟩ s req now).resp =
        (stkPush ⟨tok, push, upd, b₁, b₂⟩ s req now).resp ∧
      (stkPush ⟨tok, push, upd, a₁, a₂⟩ s req now).store.orders =
        (stkPush ⟨tok, push, upd, b₁, b₂⟩ s req now).store.orders ∧
      (stkPush ⟨tok, push, upd, a₁, a₂⟩ s req now).tokenCalled =
        (stkPush ⟨tok, push, upd, b₁, b₂⟩ s req now).tokenCalled ∧
      (stkPush ⟨tok, push, upd, a₁, a₂⟩ s req now).pushCalled =
        (stkPush ⟨tok, push, upd, b₁, b₂⟩ s req now).pushCalled ∧
      (stkPush ⟨tok, push, upd, a₁, a₂⟩ s req now).thrownAt =
        (stkPush ⟨tok, push, upd, b₁, b₂⟩ s req now).thrownAt) ∧
    (∀ (db c₁ c₂ c₃ c₄ c₅ d₁ d₂ d₃ d₄ d₅ : Bool) (cfg : EmailCfg) (s : Store)
        (body : CallbackBody) (now : String),
      (mpesaCallback cfg ⟨db, c₁, c₂, c₃, c₄, c₅⟩ s body now).resp =
        (mpesaCallback cfg ⟨db, d₁, d₂, d₃, d₄, d₅⟩ s body now).resp ∧
      (mpesaCallback cfg ⟨db, c₁, c₂, c₃, c₄, c₅⟩ s body now).store.orders =
        (mpesaCallback cfg ⟨db, d₁, d₂, d₃, d₄, d₅⟩ s body now).store.orders) := by
  refine ⟨?_, ?_, ?_⟩
  · intro se a b s req now
    have h := createOrder_fx_inv se a b s req now
    simp only [Prod.mk.injEq] at h
    exact h
  · intro tok push upd a₁ a₂ b₁ b₂ s req now
    have h := stkPush_fx_inv tok push upd a₁ a₂ b₁ b₂ s req now
    simp only [Prod.mk.injEq] at h
    exact h
  · intro db c₁ c₂ c₃ c₄ c₅ d₁ d₂ d₃ d₄ d₅ cfg s body now
    have h := mpesaCallback_fx_inv db c₁ c₂ c₃ c₄ c₅ d₁ d₂ d₃ d₄ d₅ cfg s body now
    simp only [Prod.mk.injEq] at h
    exact h

/-- Witness for C9: the callback clause evaluated on the demo store with
all side effects failing versus all succeeding. -/
theorem side_effect_failures_isolated_witness :
    (mpesaCallback demoCfg ⟨false, false, false, false, false, false⟩ demoStore0
        demoBody "T1").resp =
      (mpesaCallback demoCfg ⟨false, true, true, true, true, true⟩ demoStore0
        demoBody "T1").resp ∧
    (mpesaCallback demoCfg ⟨false, false, false, false, false, false⟩ demoStore0
        demoBody "T1").store.orders =
      (mpesaCallback demoCfg ⟨false, true, true, true, true, true⟩ demoStore0
        demoBody "T1").store.orders :=
  side_effect_failures_isolated.2.2 false false false false false false
    true true true true true demoCfg demoStore0 demoBody "T1"

/-- The create-order handler either leaves the orders alone or appends one
order whose status is `pending`. -/
theorem createOrder_orders_cases (fx : OrderFX) (s : Store) (req : OrderReq)
    (now : String) :
    (createOrder fx s req now).store.orders = s.orders ∨
    ∃ ordr, (createOrder fx s req now).store.orders = s.orders ++ [ordr] ∧
      ordr.status = "pending" := by
  unfold createOrder
  dsimp only
  repeat' (first | exact Or.inl rfl | split)
  right
  apply Exists.intro
  refine ⟨?_, ?_⟩
  · rw [createNotification_orders]
    rfl
  · rfl

/-- The STK push handler either leaves the orders alone or maps one id to
`payment_pending` through `setOrderFields`. -/
theorem stkPush_orders_cases (fx : StkFX) (s : Store) (req : StkReq)
    (now : String) :
    (stkPush fx s req now).store.orders = s.orders ∨
    ∃ oid md, (stkPush fx s req now).store.orders =
      s.orders.map (fun o =>
        if o.id == oid then setOrderFields o "payment_pending" now md else o) := by
  unfold stkPush
  dsimp only
  repeat' (first
    | exact Or.inl rfl
    | exact Or.inl (stkCatch_orders _ _ _ _ _ _ _ _)
    | split)
  right
  apply Exists.intro
  apply Exists.intro
  rw [createNotification_orders]
  rfl

/-- The callback handler either leaves the orders alone or, having matched
an order by its stored `checkoutRequestId`, maps that order's id to `paid`
(result code 0) or `payment_failed` (non-zero) through `setOrderFields`. -/
theorem mpesaCallback_orders_cases (cfg : EmailCfg) (fx : CallbackFX) (s : Store)
    (body : CallbackBody) (now : String) :
    (mpesaCallback cfg fx s body now).store.orders = s.orders ∨
    ∃ inner stk order st md,
      body.Body = some inner ∧ inner.stkCallback = some stk ∧
      s.orders.find? (fun o => hasCheckoutId o (stk.CheckoutRequestID.getD ""))
        = some order ∧
      ((st = "paid" ∧ stk.ResultCode = 0) ∨
       (st = "payment_failed" ∧ ¬stk.ResultCode = 0)) ∧
      (mpesaCallback cfg fx s body now).store.orders =
        s.orders.map (fun o =>
          if o.id == order.id then setOrderFields o st now md else o) := by
  cases hB : body.Body with
  | none =>
    left
    unfold mpesaCallback
    rw [hB]
  | some inner =>
  cases hs : inner.stkCallback with
  | none =>
    left
    unfold mpesaCallback
    rw [hB]
    simp [hs]
  | some stk =>
  cases hcid : truthyStr stk.CheckoutRequestID with
  | false =>
    left
    unfold mpesaCallback
    rw [hB]
    simp [hs, hcid]
  | true =>
  cases hfind : s.orders.find?
      (fun o => hasCheckoutId o (stk.CheckoutRequestID.getD "")) with
  | none =>
    left
    unfold mpesaCallback
    rw [hB]
    simp [hs, hcid, hfind]
  | some order =>
  cases hdb : fx.dbErr with
  | true =>
    left
    unfold mpesaCallback
    rw [hB]
    simp [hs, hcid, hfind, hdb]
  | false =>
  cases hrc : stk.ResultCode == 0 with
  | true =>
    obtain ⟨-, horders, -⟩ :=
      (mpesaCallback_matched cfg fx s body now hB hs hcid hfind hdb).1
        (eq_of_beq hrc)
    right
    refine ⟨inner, stk, order, "paid",
      some [("receiptNumber", MVal.vjson (jsOrDefault
              (metaFieldValue stk.CallbackMetadata "MpesaReceiptNumber")
              (JVal.jstr "Unknown"))),
            ("amount", MVal.vjson (jsOrDefault
              (metaFieldValue stk.CallbackMetadata "Amount") (JVal.jnum 0))),
            ("phoneNumber", MVal.vjson (jsOrDefault
              (metaFieldValue stk.CallbackMetadata "PhoneNumber")
              (JVal.jstr "Unknown"))),
            ("completedAt", MVal.vstr now),
            ("mpesaCallback", MVal.vbody body)],
      rfl, hs, hfind, Or.inl ⟨rfl, eq_of_beq hrc⟩, ?_⟩
    exact horders
  | false =>
    have hne : ¬stk.ResultCode = 0 := by
      simp [beq_eq_false_iff_ne] at hrc
      exact hrc
    obtain ⟨-, horders, -⟩ :=
      (mpesaCallback_matched cfg fx s body now hB hs hcid hfind hdb).2 hne
    right
    refine ⟨inner, stk, order, "payment_failed",
      some [("reason", MVal.vstr stk.ResultDesc),
            ("failedAt", MVal.vstr now),
            ("mpesaCallback", MVal.vbody body)],
      rfl, hs, hfind, Or.inr ⟨rfl, hne⟩, ?_⟩
    exact horders

/-- C8: across every operation of the system, an order's status becomes
`paid` only through a callback whose result code is 0 and whose correlation
id equals the order's stored `checkoutRequestId`; order creation and STK
push initiation never produce `paid`. -/
theorem no_premature_paid (s : Store) (op : Op) (i : String)
    (hbefore : (getOrderById s i).map Order.status ≠ some "paid")
    (hafter : (getOrderById (applyOp s op) i).map Order.status = some "paid") :
    ∃ cfg fx body now, op = Op.callbackOp cfg fx body now ∧
      ∃ inner stk, body.Body = some inner ∧ inner.stkCallback = some stk ∧
        stk.ResultCode = 0 ∧
        ∃ o, o ∈ s.orders ∧ o.id = i ∧
          hasCheckoutId o (stk.CheckoutRequestID.getD "") = true := by
  have hgid : getOrderById s i = s.orders.find? (fun o => o.id == i) := rfl
  cases op with
  | createOp fx req now =>
    exfalso
    simp only [applyOp] at hafter
    rcases createOrder_orders_cases fx s req now with h | ⟨ordr, h, hst⟩
    · rw [getOrderById_eq_of_orders (createOrder fx s req now).store
        ⟨s.seed, s.orders, s.notifications⟩ h i] at hafter
      exact hbefore hafter
    · have heq : getOrderById (createOrder fx s req now).store i =
          (s.orders.find? (fun o => o.id == i)).or
            ([ordr].find? (fun o => o.id == i)) := by
        unfold getOrderById
        rw [h, List.find?_append]
      rw [heq] at hafter
      cases hfs : s.orders.find? (fun o => o.id == i) with
      | some o0 =>
        rw [hfs] at hafter
        exact hbefore (by rw [hgid, hfs]; exact hafter)
      | none =>
        rw [hfs] at hafter
        simp only [Option.none_or] at hafter
        cases hfo : [ordr].find? (fun o => o.id == i) with
        | none => rw [hfo] at hafter; exact Option.noConfusion hafter
        | some o1 =>
          rw [hfo] at hafter
          have ho1 : o1 ∈ [ordr] := List.mem_of_find?_eq_some hfo
          have ho1e : o1 = ordr := by simpa using ho1
          subst ho1e
          simp only [Option.map_some'] at hafter
          rw [hst] at hafter
          simp at hafter
  | pushOp fx req now =>
    exfalso
    simp only [applyOp] at hafter
    rcases stkPush_orders_cases fx s req now with h | ⟨oid, md, h⟩
    · rw [getOrderById_eq_of_orders (stkPush fx s req now).store
        ⟨s.seed, s.orders, s.notifications⟩ h i] at hafter
      exact hbefore hafter
    · have hmap : getOrderById (stkPush fx s req now).store i =
          (s.orders.find? (fun o => o.id == i)).map
            (fun o => if o.id == oid then setOrderFields o "payment_pending" now md else o) := by
        unfold getOrderById
        rw [h]
        exact find?_map_keyPres s.orders Order.id _ i
          (fun a => by by_cases hc : (a.id == oid) = true <;> simp [hc])
      rw [hmap] at hafter
      cases hfs : s.orders.find? (fun o => o.id == i) with
      | none => rw [hfs] at hafter; exact Option.noConfusion hafter
      | some o0 =>
        rw [hfs] at hafter
        simp only [Option.map_some'] at hafter
        by_cases hc : (o0.id == oid) = true
        · rw [if_pos hc] at hafter
          simp [setOrderFields] at hafter
        · rw [if_neg hc] at hafter
          exact hbefore (by rw [hgid, hfs]; exact hafter)
  | callbackOp cfg fx body now =>
    simp only [applyOp] at hafter
    rcases mpesaCallback_orders_cases cfg fx s body now with h |
      ⟨inner, stk, order, st, md, hB, hs, hfind, hst, h⟩
    · exfalso
      rw [getOrderById_eq_of_orders (mpesaCallback cfg fx s body now).store
        ⟨s.seed, s.orders, s.notifications⟩ h i] at hafter
      exact hbefore hafter
    · have hmap : getOrderById (mpesaCallback cfg fx s body now).store i =
          (s.orders.find? (fun o => o.id == i)).map
            (fun o => if o.id == order.id then setOrderFields o st now md else o) := by
        unfold getOrderById
        rw [h]
        exact find?_map_keyPres s.orders Order.id _ i
          (fun a => by by_cases hc : (a.id == order.id) = true <;> simp [hc])
      rw [hmap] at hafter
      cases hfs : s.orders.find? (fun o => o.id == i) with
      | none => rw [hfs] at hafter; exact Option.noConfusion hafter
      | some o0 =>
        rw [hfs] at hafter
        simp only [Option.map_some'] at hafter
        have ho0id : o0.id = i := by
          have := List.find?_some hfs
          exact eq_of_beq (by simpa using this)
        by_cases hc : (o0.id == order.id) = true
        · rw [if_pos hc] at hafter
          have hstat : st = "paid" := by
            simpa [setOrderFields] using hafter
          rcases hst with ⟨-, hrc⟩ | ⟨hfailed, -⟩
          · refine ⟨cfg, fx, body, now, rfl, inner, stk, hB, hs, hrc,
              order, List.mem_of_find?_eq_some hfind, ?_, ?_⟩
            · rw [← eq_of_beq hc, ho0id]
            · have := List.find?_some hfind
              simpa using this
          · exfalso
            rw [hfailed] at hstat
            exact absurd hstat.symm (by decide)
        · exfalso
          rw [if_neg hc] at hafter
          exact hbefore (by rw [hgid, hfs]; exact hafter)

/-- Witness for C8: the invariant applied to the success callback on the
pending demo store, exhibiting the matched order. -/
theorem no_premature_paid_witness :
    ((getOrderById demoStore0 "ord-1").map Order.status ≠ some "paid") ∧
    ((getOrderById (applyOp demoStore0
        (Op.callbackOp demoCfg demoCbFX demoBody "T1")) "ord-1").map Order.status
      = some "paid") ∧
    (∃ cfg fx body now,
      Op.callbackOp demoCfg demoCbFX demoBody "T1" = Op.callbackOp cfg fx body now ∧
      ∃ inner stk, body.Body = some inner ∧ inner.stkCallback = some stk ∧
        stk.ResultCode = 0 ∧
        ∃ o, o ∈ demoStore0.orders ∧ o.id = "ord-1" ∧
          hasCheckoutId o (stk.CheckoutRequestID.getD "") = true) :=
  ⟨by decide, rfl,
    no_premature_paid demoStore0 (Op.callbackOp demoCfg demoCbFX demoBody "T1")
      "ord-1" (by decide) rfl⟩

end BackendPayment
